import Mathlib

/-!
# GitHub webhook event source (`pkg/sources/github/github.go`)

A shallow embedding of the two lifecycle operations of `GithubEventSource`,
`StartFeed` and `StopFeed`, together with the library routines they rely on
(`strings.Split` for the one-byte separator `"/"`, and `strconv.FormatInt` /
`strconv.ParseInt` in base 10 at 64 bits).

Conventions of the embedding.

* Go strings are Lean `String`s; the library routines work on the underlying
  character list (`String.data`).  The only bytes the routines inspect are ASCII
  (`/`, `+`, `-`, the digits and letters), so reading a string character by
  character or byte by byte selects the same positions.
* `int64` is `Int` together with an explicit range, `uint64` is `Nat` with
  explicit reduction modulo `2^64` where the Go code can wrap.
* A Go `interface{}` value is a `Value`; `map[string]interface{}` is an
  association list `GoMap`.
* The platform (the authenticated `go-github` client talking to the REST API)
  is a parameter `Platform`; every call made on it is recorded in the `calls`
  trace of the returned `Run`.
* A Go run-time panic is an explicit `Outcome.panic`.
* `log.Printf` lines have no effect on results and are not represented.
-/

namespace Github

/-! ## Data model -/

/-- A Go `interface{}` value, as far as the event source can tell values apart:
strings, and everything that is not a string. -/
inductive Value where
  | null : Value
  | str (s : String) : Value
  | int (i : Int) : Value
  | bool (b : Bool) : Value
  deriving DecidableEq, Repr

/-- A Go `map[string]interface{}`: an association list, the first binding of a
key being the live one.  The nil map is the empty list. -/
abbrev GoMap := List (String × Value)

/-- Map read `m[k]` in its two-result form: `none` when the key is absent. -/
def GoMap.get (m : GoMap) (k : String) : Option Value :=
  match m with
  | [] => none
  | (k', v) :: rest => if k' = k then some v else GoMap.get rest k

/-- Map write `m[k] = v`. -/
def GoMap.set (m : GoMap) (k : String) (v : Value) : GoMap :=
  match m with
  | [] => [(k, v)]
  | (k', v') :: rest => if k' = k then (k, v) :: rest else (k', v') :: GoMap.set rest k v

/-- The type assertion `x.(string)` applied to the result of a one-result map
read: it succeeds only on a present string value (an absent key reads as the nil
interface, on which the assertion fails). -/
def assertString (x : Option Value) : Option String :=
  match x with
  | some (Value.str s) => some s
  | _ => none

/-- Modelled from the spec: the framework type `sources.EventTrigger` is declared
outside the source file; the spec gives it as
`{resource: string, parameters: mapping[string]->value}`. -/
structure EventTrigger where
  Resource : String
  Parameters : GoMap
  deriving DecidableEq, Repr

/-- Modelled from the spec: the framework type `sources.FeedContext` is declared
outside the source file; the spec gives it as `{context: mapping[string]->value}`. -/
structure FeedContext where
  Context : GoMap
  deriving DecidableEq, Repr

/-- The two sentinel causes carried by a `strconv.NumError`. -/
inductive NumCause where
  | ErrSyntax : NumCause
  | ErrRange : NumCause
  deriving DecidableEq, Repr

/-- The library error `*strconv.NumError`. -/
structure NumError where
  Func : String
  Num : String
  Err : NumCause
  deriving DecidableEq, Repr

/-- The client library error `*ghclient.ErrorResponse`: the `Message` field the
event source inspects, and the HTTP status standing for the remaining fields. -/
structure ErrorResponse where
  Message : String
  StatusCode : Nat
  deriving DecidableEq, Repr

/-- A non-nil Go `error`, by dynamic type: the client library's error response,
the number-parsing error, or an error of any other type, of which the message
text is kept. -/
inductive GoError where
  | errorResponse (r : ErrorResponse) : GoError
  | numError (e : NumError) : GoError
  | other (text : String) : GoError
  deriving DecidableEq, Repr

/-- The client library record `ghclient.Hook`; pointer fields are options. -/
structure Hook where
  CreatedAt : Option Int
  UpdatedAt : Option Int
  Name : Option String
  URL : Option String
  Events : List String
  Active : Option Bool
  Config : GoMap
  ID : Option Int
  deriving DecidableEq, Repr

/-- The kinds of run-time panic the two operations can end in. -/
inductive Panic where
  | indexOutOfRange : Panic
  | typeAssertion : Panic
  | nilDereference : Panic
  deriving DecidableEq, Repr

/-- How a Go function call ends: by a panic, or by returning. -/
inductive Outcome (α : Type) where
  | panic (p : Panic) : Outcome α
  | ret (a : α) : Outcome α
  deriving DecidableEq, Repr

/-- One call on the platform's hook endpoints, with the access token the client
was built from. -/
inductive Call where
  | createHook (token owner repo : String) (hook : Hook) : Call
  | deleteHook (token owner repo : String) (id : Int) : Call
  deriving DecidableEq, Repr

/-- The platform's answers: `CreateHook` yields the `(*Hook, error)` pair (the
response value is discarded by the caller), `DeleteHook` the error. -/
structure Platform where
  CreateHook : String → String → String → Hook → Option Hook × Option GoError
  DeleteHook : String → String → String → Int → Option GoError

/-- A finished run: the platform calls made, in order, and the outcome. -/
structure Run (α : Type) where
  calls : List Call
  outcome : Outcome α
  deriving DecidableEq, Repr

/-! ## `strings.Split` with a one-byte separator -/

/-- `strings.Count(s, sep)` for a one-byte separator. -/
def Count (s : List Char) (sep : Char) : Nat :=
  match s with
  | [] => 0
  | c :: cs => if c = sep then Count cs sep + 1 else Count cs sep

/-- `strings.IndexByte(s, c)`: index of the first occurrence, `none` for `-1`. -/
def IndexByte (s : List Char) (sep : Char) : Option Nat :=
  match s with
  | [] => none
  | c :: cs => if c = sep then some 0 else (IndexByte cs sep).map (· + 1)

/-- The loop of `strings.genSplit` (with `sepSave = 0` and a separator of length
one): `k` is the number of pieces still to cut off, `n - 1 - i`. -/
def genSplitLoop (sep : Char) (k : Nat) (s : List Char) : List (List Char) :=
  match k with
  | 0 => [s]
  | k + 1 =>
    match IndexByte s sep with
    | none => [s]
    | some m => s.take m :: genSplitLoop sep k (s.drop (m + 1))

/-- `strings.Split(s, sep)` for a one-byte separator `sep`: `genSplit` with
`n = Count(s, sep) + 1`. -/
def Split (s : String) (sep : Char) : List String :=
  (genSplitLoop sep (Count s.data sep + 1 - 1) s.data).map String.mk

/-! ## `strconv` in base 10 at 64 bits -/

/-- `strconv.syntaxError`. -/
def syntaxError (fn str : String) : NumError := ⟨fn, str, NumCause.ErrSyntax⟩

/-- `strconv.rangeError`. -/
def rangeError (fn str : String) : NumError := ⟨fn, str, NumCause.ErrRange⟩

/-- The digit value of one byte in `strconv.ParseUint`, `none` for the
`default` branch of the switch. -/
def digitVal (c : Char) : Option Nat :=
  if 48 ≤ c.toNat ∧ c.toNat ≤ 57 then some (c.toNat - 48)
  else if 97 ≤ c.toNat ∧ c.toNat ≤ 122 then some (c.toNat - 97 + 10)
  else if 65 ≤ c.toNat ∧ c.toNat ≤ 90 then some (c.toNat - 65 + 10)
  else none

/-- The largest `uint64`. -/
def maxUint64 : Nat := 2 ^ 64 - 1

/-- The digit loop of `strconv.ParseUint(s, 10, 64)`; `n` is the accumulator.
Returns the value together with the error, as the Go function does. -/
def ParseUintLoop (s0 : String) (s : List Char) (n : Nat) : Nat × Option NumError :=
  match s with
  | [] => (n, none)
  | c :: cs =>
    match digitVal c with
    | none => (0, some (syntaxError "ParseUint" s0))
    | some d =>
      if d ≥ 10 then (0, some (syntaxError "ParseUint" s0))
      else if n ≥ maxUint64 / 10 + 1 then (maxUint64, some (rangeError "ParseUint" s0))
      else
        let n' := (n * 10) % 2 ^ 64
        let n1 := (n' + d) % 2 ^ 64
        if n1 < n' ∨ n1 > maxUint64 then (maxUint64, some (rangeError "ParseUint" s0))
        else ParseUintLoop s0 cs n1

/-- `strconv.ParseUint(s, 10, 64)`. -/
def ParseUint (s : String) : Nat × Option NumError :=
  if s.data.length = 0 then (0, some (syntaxError "ParseUint" s))
  else ParseUintLoop s s.data 0

/-- The conversion `int64(x)`: reduction into `[-2^63, 2^63)`. -/
def toInt64 (x : Int) : Int := (x + 2 ^ 63) % 2 ^ 64 - 2 ^ 63

/-- `strconv.ParseInt(s, 10, 64)`: the value and the error. -/
def ParseInt (s0 : String) : Int × Option NumError :=
  match s0.data with
  | [] => (0, some (syntaxError "ParseInt" s0))
  | c :: cs =>
    let neg : Bool := c = '-'
    let s : String := if c = '+' then String.mk cs else if c = '-' then String.mk cs else s0
    match ParseUint s with
    | (un, some err) =>
      if err.Err ≠ NumCause.ErrRange then (0, some ⟨"ParseInt", s0, err.Err⟩)
      else if !neg ∧ un ≥ 2 ^ 63 then (2 ^ 63 - 1, some (rangeError "ParseInt" s0))
      else if neg ∧ un > 2 ^ 63 then (-(2 ^ 63), some (rangeError "ParseInt" s0))
      else (if neg then toInt64 (-(toInt64 un)) else toInt64 un, none)
    | (un, none) =>
      if !neg ∧ un ≥ 2 ^ 63 then (2 ^ 63 - 1, some (rangeError "ParseInt" s0))
      else if neg ∧ un > 2 ^ 63 then (-(2 ^ 63), some (rangeError "ParseInt" s0))
      else (if neg then toInt64 (-(toInt64 un)) else toInt64 un, none)

/-- The byte `'0' + d` written by `formatBits`. -/
def digitChar (d : Nat) : Char := Char.ofNat (48 + d)

/-- The base-10 loop of `strconv.formatBits`, filling the buffer from its end:
`acc` is the part already written, `fuel` the room left in the 65-byte buffer.
One digit is written per step (the library writes them two at a time from a
table, which yields the same bytes). -/
def formatLoop (fuel : Nat) (u : Nat) (acc : List Char) : List Char :=
  match fuel with
  | 0 => digitChar (u % 10) :: acc
  | fuel + 1 =>
    if u ≥ 10 then formatLoop fuel (u / 10) (digitChar (u % 10) :: acc)
    else digitChar u :: acc

/-- `strconv.formatBits(nil, u, 10, neg, false)`: for a negative number `u` is
negated as a `uint64` first, and the sign is written last. -/
def formatBits (u : Nat) (neg : Bool) : List Char :=
  let u := if neg then (2 ^ 64 - u) % 2 ^ 64 else u
  let a := formatLoop 64 u []
  if neg then '-' :: a else a

/-- `strconv.FormatInt(i, 10)`, `uint64(i)` being `i mod 2^64`. -/
def FormatInt (i : Int) : String :=
  String.mk (formatBits (i % 2 ^ 64).toNat (decide (i < 0)))

/-! ## The event source -/

/-- The constant `webhookIDKey`. -/
def webhookIDKey : String := "id"

/-- `GithubEventSource.StopFeed`: the calls made on the platform and the returned
error (`none` for `nil`). -/
def StopFeed (P : Platform) (trigger : EventTrigger) (feedContext : FeedContext) :
    Run (Option GoError) :=
  let components := Split trigger.Resource '/'
  match components[0]? with
  | none => ⟨[], Outcome.panic Panic.indexOutOfRange⟩
  | some owner =>
    match components[1]? with
    | none => ⟨[], Outcome.panic Panic.indexOutOfRange⟩
    | some repo =>
      match feedContext.Context.get webhookIDKey with
      | none => ⟨[], Outcome.ret none⟩
      | some v =>
        match assertString (some v) with
        | none => ⟨[], Outcome.panic Panic.typeAssertion⟩
        | some webhookID =>
          match assertString (trigger.Parameters.get "accessToken") with
          | none => ⟨[], Outcome.panic Panic.typeAssertion⟩
          | some accessToken =>
            match ParseInt webhookID with
            | (_, some err) => ⟨[], Outcome.ret (some (GoError.numError err))⟩
            | (id, none) =>
              match P.DeleteHook accessToken owner repo id with
              | some err =>
                match err with
                | GoError.errorResponse errResp =>
                  if errResp.Message = "Not Found" then
                    ⟨[Call.deleteHook accessToken owner repo id], Outcome.ret none⟩
                  else
                    ⟨[Call.deleteHook accessToken owner repo id], Outcome.ret (some err)⟩
                | _ => ⟨[Call.deleteHook accessToken owner repo id], Outcome.ret (some err)⟩
              | none => ⟨[Call.deleteHook accessToken owner repo id], Outcome.ret none⟩

/-- `GithubEventSource.StartFeed`: the calls made on the platform and the returned
pair `(*FeedContext, error)`. -/
def StartFeed (P : Platform) (trigger : EventTrigger) (route : String) :
    Run (Option FeedContext × Option GoError) :=
  match assertString (trigger.Parameters.get "accessToken") with
  | none => ⟨[], Outcome.panic Panic.typeAssertion⟩
  | some accessToken =>
    let active := true
    let name := "web"
    let config : GoMap := []
    let config := config.set "url" (Value.str ("http://" ++ route))
    let config := config.set "content_type" (Value.str "json")
    match assertString (trigger.Parameters.get "secretToken") with
    | none => ⟨[], Outcome.panic Panic.typeAssertion⟩
    | some secretToken =>
      let config := config.set "secret" (Value.str secretToken)
      let hook : Hook :=
        { CreatedAt := none, UpdatedAt := none, Name := some name, URL := some route,
          Events := ["pull_request"], Active := some active, Config := config, ID := none }
      let components := Split trigger.Resource '/'
      match components[0]? with
      | none => ⟨[], Outcome.panic Panic.indexOutOfRange⟩
      | some owner =>
        match components[1]? with
        | none => ⟨[], Outcome.panic Panic.indexOutOfRange⟩
        | some repo =>
          match P.CreateHook accessToken owner repo hook with
          | (_, some err) =>
            ⟨[Call.createHook accessToken owner repo hook], Outcome.ret (none, some err)⟩
          | (none, none) =>
            ⟨[Call.createHook accessToken owner repo hook], Outcome.panic Panic.nilDereference⟩
          | (some h, none) =>
            match h.ID with
            | none =>
              ⟨[Call.createHook accessToken owner repo hook],
                Outcome.panic Panic.nilDereference⟩
            | some id =>
              ⟨[Call.createHook accessToken owner repo hook],
                Outcome.ret (some ⟨[(webhookIDKey, Value.str (FormatInt id))]⟩, none)⟩

/-! ## The scenario of the specification, as concrete data -/

/-- The trigger of the end-to-end scenario. -/
def acmeTrigger : EventTrigger :=
  ⟨"acme/widgets", [("accessToken", Value.str "tok123"), ("secretToken", Value.str "shh")]⟩

/-- A platform that stores the hook under the given number, and on deletion
answers with the given error. -/
def assigningPlatform (id : Int) (del : Option GoError) : Platform :=
  { CreateHook := fun _ _ _ hook => (some { hook with ID := some id }, none),
    DeleteHook := fun _ _ _ _ => del }

/-- A platform on which every call fails: creation with a transport error,
deletion with the given error. -/
def failingPlatform (del : GoError) : Platform :=
  { CreateHook := fun _ _ _ _ => (none, some (GoError.other "dial tcp: connection refused")),
    DeleteHook := fun _ _ _ _ => some del }

/-- The webhook specification of the end-to-end scenario (route
`example.com/hook`, secret `shh`), as `StartFeed` sends it. -/
def scenarioHook : Hook :=
  { CreatedAt := none, UpdatedAt := none, Name := some "web", URL := some "example.com/hook",
    Events := ["pull_request"], Active := some true,
    Config := [("url", Value.str "http://example.com/hook"),
      ("content_type", Value.str "json"), ("secret", Value.str "shh")],
    ID := none }

/-- The platform's "Not Found" error response. -/
def notFound : GoError := GoError.errorResponse ⟨"Not Found", 404⟩

/-! ## Facts about `strings.Split` -/

theorem Count_eq_zero (sep : Char) (s : List Char) (h : sep ∉ s) : Count s sep = 0 := by
  induction s with
  | nil => rfl
  | cons c cs ih =>
    have hc : c ≠ sep := fun e => h (by simp [e])
    have hcs : sep ∉ cs := fun e => h (List.mem_cons_of_mem _ e)
    simp [Count, hc, ih hcs]

theorem Count_append_sep (sep : Char) (o r : List Char) (ho : sep ∉ o) :
    Count (o ++ sep :: r) sep = Count r sep + 1 := by
  induction o with
  | nil => simp [Count]
  | cons c cs ih =>
    have hc : c ≠ sep := fun e => ho (by simp [e])
    have hcs : sep ∉ cs := fun e => ho (List.mem_cons_of_mem _ e)
    simp [Count, hc, ih hcs]

theorem IndexByte_append_sep (sep : Char) (o r : List Char) (ho : sep ∉ o) :
    IndexByte (o ++ sep :: r) sep = some o.length := by
  induction o with
  | nil => simp [IndexByte]
  | cons c cs ih =>
    have hc : c ≠ sep := fun e => ho (by simp [e])
    have hcs : sep ∉ cs := fun e => ho (List.mem_cons_of_mem _ e)
    simp [IndexByte, hc, ih hcs]

theorem genSplitLoop_ne_nil (sep : Char) (k : Nat) (s : List Char) :
    genSplitLoop sep k s ≠ [] := by
  cases k with
  | zero => simp [genSplitLoop]
  | succ k =>
    unfold genSplitLoop
    cases IndexByte s sep <;> simp

theorem Split_ne_nil (s : String) (sep : Char) : Split s sep ≠ [] := by
  simp [Split, genSplitLoop_ne_nil]

theorem genSplitLoop_one (sep : Char) (o r : List Char) (ho : sep ∉ o) :
    genSplitLoop sep 1 (o ++ sep :: r) = [o, r] := by
  have hdrop : List.drop (o.length + 1) (o ++ sep :: r) = r := by
    rw [List.drop_append_eq_append_drop]
    simp
  simp only [genSplitLoop, IndexByte_append_sep _ _ _ ho, hdrop]
  simp

theorem Split_two (o r : String) (ho : '/' ∉ o.data) (hr : '/' ∉ r.data) :
    Split (o ++ "/" ++ r) '/' = [o, r] := by
  have hd : (o ++ "/" ++ r).data = o.data ++ '/' :: r.data := by
    simp [String.data_append]
  have hc : Count (o.data ++ '/' :: r.data) '/' + 1 - 1 = 1 := by
    rw [Count_append_sep _ _ _ ho, Count_eq_zero _ _ hr]
  rw [Split, hd, hc, genSplitLoop_one _ _ _ ho]
  rfl

theorem Split_no_sep (s : String) (h : '/' ∉ s.data) : Split s '/' = [s] := by
  simp [Split, Count_eq_zero _ _ h, genSplitLoop]

theorem IndexByte_of_Count_pos (sep : Char) (s : List Char) (h : 0 < Count s sep) :
    ∃ m, IndexByte s sep = some m ∧ Count (s.drop (m + 1)) sep = Count s sep - 1 := by
  induction s with
  | nil => simp [Count] at h
  | cons c cs ih =>
    by_cases hc : c = sep
    · exact ⟨0, by simp [IndexByte, hc], by simp [Count, hc]⟩
    · have hcs : 0 < Count cs sep := by simpa [Count, hc] using h
      obtain ⟨m, hm, hcount⟩ := ih hcs
      exact ⟨m + 1, by simp [IndexByte, hc, hm], by simpa [Count, hc] using hcount⟩

theorem genSplitLoop_length (sep : Char) (k : Nat) (s : List Char) (h : k ≤ Count s sep) :
    (genSplitLoop sep k s).length = k + 1 := by
  induction k generalizing s with
  | zero => rfl
  | succ k ih =>
    obtain ⟨m, hm, hcount⟩ := IndexByte_of_Count_pos sep s (by omega)
    simp only [genSplitLoop, hm, List.length_cons]
    rw [ih _ (by omega)]

/-- `Split` cuts at every separator: it yields one component more than there
are separators. -/
theorem Split_length (s : String) (sep : Char) :
    (Split s sep).length = Count s.data sep + 1 := by
  simp only [Split, List.length_map]
  rw [genSplitLoop_length sep _ s.data (by omega)]
  omega

theorem Count_pos_of_mem (sep : Char) (s : List Char) (h : sep ∈ s) : 0 < Count s sep := by
  induction s with
  | nil => simp at h
  | cons c cs ih =>
    by_cases hc : c = sep
    · simp [Count, hc]
    · have hcs : sep ∈ cs := by
        rcases List.mem_cons.mp h with e | e
        · exact absurd e.symm hc
        · exact e
      simpa [Count, hc] using ih hcs

/-- A resource splits into fewer than two components exactly when it contains
no separator. -/
theorem Split_length_lt_two_iff (s : String) (sep : Char) :
    (Split s sep).length < 2 ↔ sep ∉ s.data := by
  rw [Split_length]
  constructor
  · intro h hmem
    have := Count_pos_of_mem sep s.data hmem
    omega
  · intro h
    rw [Count_eq_zero sep s.data h]
    omega

/-! ## Facts about `strconv` -/

theorem digitVal_digitChar (d : Nat) (h : d < 10) : digitVal (digitChar d) = some d := by
  interval_cases d <;> rfl

theorem digitChar_ne_sign (d : Nat) (h : d < 10) :
    digitChar d ≠ '+' ∧ digitChar d ≠ '-' := by
  interval_cases d <;> decide

theorem formatLoop_acc (fuel u : Nat) (acc : List Char) :
    formatLoop fuel u acc = formatLoop fuel u [] ++ acc := by
  induction fuel generalizing u acc with
  | zero => simp [formatLoop]
  | succ k ih =>
    unfold formatLoop
    split
    · rw [ih (u / 10) (digitChar (u % 10) :: acc), ih (u / 10) [digitChar (u % 10)]]
      simp
    · simp

theorem formatLoop_head (fuel u : Nat) :
    ∃ d cs, d < 10 ∧ formatLoop fuel u [] = digitChar d :: cs := by
  induction fuel generalizing u with
  | zero => exact ⟨u % 10, [], Nat.mod_lt _ (by decide), rfl⟩
  | succ k ih =>
    unfold formatLoop
    split
    · obtain ⟨d, cs, hd, hcs⟩ := ih (u / 10)
      refine ⟨d, cs ++ [digitChar (u % 10)], hd, ?_⟩
      rw [formatLoop_acc, hcs]
      rfl
    · exact ⟨u, [], by omega, rfl⟩

theorem ParseUintLoop_cons (s0 : String) (c : Char) (cs : List Char) (n : Nat) :
    ParseUintLoop s0 (c :: cs) n =
      match digitVal c with
      | none => (0, some (syntaxError "ParseUint" s0))
      | some d =>
        if d ≥ 10 then (0, some (syntaxError "ParseUint" s0))
        else if n ≥ maxUint64 / 10 + 1 then (maxUint64, some (rangeError "ParseUint" s0))
        else if (n * 10 % 2 ^ 64 + d) % 2 ^ 64 < n * 10 % 2 ^ 64 ∨
            (n * 10 % 2 ^ 64 + d) % 2 ^ 64 > maxUint64 then
          (maxUint64, some (rangeError "ParseUint" s0))
        else ParseUintLoop s0 cs ((n * 10 % 2 ^ 64 + d) % 2 ^ 64) := rfl

theorem ParseUintLoop_append (s0 : String) (xs ys : List Char) (n m : Nat)
    (h : ParseUintLoop s0 xs n = (m, none)) :
    ParseUintLoop s0 (xs ++ ys) n = ParseUintLoop s0 ys m := by
  induction xs generalizing n with
  | nil =>
    simp only [ParseUintLoop, Prod.mk.injEq, and_true] at h
    simp [h]
  | cons c cs ih =>
    simp only [List.cons_append]
    rw [ParseUintLoop_cons] at h ⊢
    cases hd : digitVal c with
    | none => simp [hd, syntaxError] at h
    | some d =>
      simp only [hd] at h ⊢
      split at h
      · simp at h
      · split at h
        · simp at h
        · split at h
          · simp at h
          · rename_i h1 h2 h3
            simp only [h1, h2, h3, if_false]
            exact ih _ h

theorem ParseUintLoop_digit (s0 : String) (n d : Nat) (hd : d < 10)
    (hn : n * 10 + d < 2 ^ 64) :
    ParseUintLoop s0 [digitChar d] n = (n * 10 + d, none) := by
  have h1 : ¬ (n ≥ maxUint64 / 10 + 1) := by
    simp only [maxUint64]; omega
  have h2 : (n * 10) % 2 ^ 64 = n * 10 := Nat.mod_eq_of_lt (by omega)
  have h3 : (n * 10 + d) % 2 ^ 64 = n * 10 + d := Nat.mod_eq_of_lt hn
  have h4 : ¬ (n * 10 + d < n * 10 ∨ n * 10 + d > maxUint64) := by
    simp only [maxUint64]; omega
  have h5 : ¬ (d ≥ 10) := by omega
  simp only [ParseUintLoop, digitVal_digitChar d hd, h1, h2, h3, h4, h5, if_false]

theorem ParseUintLoop_formatLoop (s0 : String) (fuel u : Nat)
    (hfuel : u < 10 ^ (fuel + 1)) (hu : u < 2 ^ 64) :
    ParseUintLoop s0 (formatLoop fuel u []) 0 = (u, none) := by
  induction fuel generalizing u with
  | zero =>
    have h10 : u < 10 := by simpa using hfuel
    have := ParseUintLoop_digit s0 0 u h10 (by omega)
    simpa [formatLoop, Nat.mod_eq_of_lt h10] using this
  | succ k ih =>
    unfold formatLoop
    split
    · have hq : u / 10 < 10 ^ (k + 1) := by
        rw [Nat.div_lt_iff_lt_mul (by decide)]
        rw [pow_succ] at hfuel
        exact hfuel
      have hq2 : u / 10 < 2 ^ 64 := by omega
      rw [formatLoop_acc, ParseUintLoop_append s0 _ _ 0 (u / 10) (ih (u / 10) hq hq2)]
      have := ParseUintLoop_digit s0 (u / 10) (u % 10) (Nat.mod_lt _ (by decide)) (by omega)
      rw [this]
      congr 1
      omega
    · have h10 : u < 10 := by omega
      have := ParseUintLoop_digit s0 0 u h10 (by omega)
      simpa using this

theorem ParseUint_formatLoop (u : Nat) (hu : u < 2 ^ 64) :
    ParseUint (String.mk (formatLoop 64 u [])) = (u, none) := by
  obtain ⟨d, cs, _, hcs⟩ := formatLoop_head 64 u
  have hlen : ¬ ((formatLoop 64 u []).length = 0) := by simp [hcs]
  have hfuel : u < 10 ^ (64 + 1) := lt_of_lt_of_le hu (by norm_num)
  simp only [ParseUint, hlen, if_false]
  exact ParseUintLoop_formatLoop _ 64 u hfuel hu

theorem FormatInt_neg (i : Int) (h1 : -(2 ^ 63) ≤ i) (hneg : i < 0) :
    FormatInt i = String.mk ('-' :: formatLoop 64 (-i).toNat []) := by
  have hu : ((2 ^ 64 - (i % 2 ^ 64).toNat) % 2 ^ 64) = (-i).toNat := by omega
  unfold FormatInt formatBits
  simp only [hneg, decide_True, if_true]
  rw [hu]

theorem FormatInt_nonneg (i : Int) (h2 : i < 2 ^ 63) (hpos : 0 ≤ i) :
    FormatInt i = String.mk (formatLoop 64 i.toNat []) := by
  have hu : (i % 2 ^ 64).toNat = i.toNat := by omega
  have hneg : ¬ (i < 0) := by omega
  unfold FormatInt formatBits
  simp only [hneg, decide_False, if_false, Bool.false_eq_true]
  rw [hu]

theorem ParseInt_minus (cs : List Char) (un : Nat)
    (hp : ParseUint (String.mk cs) = (un, none)) (hun : un ≤ 2 ^ 63) :
    ParseInt (String.mk ('-' :: cs)) = (toInt64 (-(toInt64 un)), none) := by
  have hs : ¬ ('-' = '+') := by decide
  have hc : ¬ (un > 2 ^ 63) := by omega
  simp only [ParseInt, hs, if_false, if_true, hp, decide_True, Bool.not_true,
    Bool.false_eq_true, false_and, true_and, hc]

theorem ParseInt_unsigned (c : Char) (cs : List Char) (un : Nat)
    (hplus : c ≠ '+') (hminus : c ≠ '-')
    (hp : ParseUint (String.mk (c :: cs)) = (un, none)) (hun : un < 2 ^ 63) :
    ParseInt (String.mk (c :: cs)) = (toInt64 un, none) := by
  have hc : ¬ (un ≥ 2 ^ 63) := by omega
  simp only [ParseInt, hplus, hminus, if_false, hp, decide_False, Bool.not_false,
    Bool.false_eq_true, false_and, true_and, hc]

/-- Parsing undoes formatting on the whole `int64` range. -/
theorem ParseInt_FormatInt (i : Int) (h1 : -(2 ^ 63) ≤ i) (h2 : i < 2 ^ 63) :
    ParseInt (FormatInt i) = (i, none) := by
  by_cases hneg : i < 0
  · have hp := ParseUint_formatLoop (-i).toNat (by omega)
    have hv : toInt64 (-(toInt64 ((-i).toNat : Int))) = i := by
      unfold toInt64; omega
    rw [FormatInt_neg i h1 hneg, ParseInt_minus _ _ hp (by omega), hv]
  · obtain ⟨d, cs, hd, hcs⟩ := formatLoop_head 64 i.toNat
    obtain ⟨hplus, hminus⟩ := digitChar_ne_sign d hd
    have hp := ParseUint_formatLoop i.toNat (by omega)
    have hv : toInt64 (i.toNat : Int) = i := by
      unfold toInt64; omega
    rw [FormatInt_nonneg i h2 (by omega)]
    rw [hcs] at hp ⊢
    rw [ParseInt_unsigned _ _ _ hplus hminus hp (by omega), hv]

/-! ## Unfolding the two operations on a well-formed trigger -/

theorem config_eq (a b c : Value) :
    GoMap.set (GoMap.set (GoMap.set [] "url" a) "content_type" b) "secret" c =
      [("url", a), ("content_type", b), ("secret", c)] := by
  simp [GoMap.set]

theorem StartFeed_calls (P : Platform) (trigger : EventTrigger) (route o r tok sec : String)
    (hres : trigger.Resource = o ++ "/" ++ r) (ho : '/' ∉ o.data) (hr : '/' ∉ r.data)
    (hat : trigger.Parameters.get "accessToken" = some (Value.str tok))
    (hst : trigger.Parameters.get "secretToken" = some (Value.str sec)) :
    (StartFeed P trigger route).calls =
      [Call.createHook tok o r
        { CreatedAt := none, UpdatedAt := none, Name := some "web", URL := some route,
          Events := ["pull_request"], Active := some true,
          Config := [("url", Value.str ("http://" ++ route)),
            ("content_type", Value.str "json"), ("secret", Value.str sec)],
          ID := none }] := by
  simp only [StartFeed, hat, hst, assertString, hres, Split_two o r ho hr, config_eq,
    List.getElem?_cons_zero, List.getElem?_cons_succ]
  generalize P.CreateHook tok o r _ = ans
  rcases ans with ⟨_ | h, _ | e⟩
  · rfl
  · rfl
  · dsimp only
    cases h.ID <;> rfl
  · rfl

theorem StartFeed_outcome_error (P : Platform) (trigger : EventTrigger)
    (route o r tok sec : String) (e : GoError)
    (hres : trigger.Resource = o ++ "/" ++ r) (ho : '/' ∉ o.data) (hr : '/' ∉ r.data)
    (hat : trigger.Parameters.get "accessToken" = some (Value.str tok))
    (hst : trigger.Parameters.get "secretToken" = some (Value.str sec))
    (hP : (P.CreateHook tok o r
        { CreatedAt := none, UpdatedAt := none, Name := some "web", URL := some route,
          Events := ["pull_request"], Active := some true,
          Config := [("url", Value.str ("http://" ++ route)),
            ("content_type", Value.str "json"), ("secret", Value.str sec)],
          ID := none }).2 = some e) :
    (StartFeed P trigger route).outcome = Outcome.ret (none, some e) := by
  simp only [StartFeed, hat, hst, assertString, hres, Split_two o r ho hr, config_eq,
    List.getElem?_cons_zero, List.getElem?_cons_succ]
  revert hP
  generalize P.CreateHook tok o r _ = ans
  rcases ans with ⟨_ | h, _ | e'⟩ <;> simp

theorem StartFeed_outcome_ok (P : Platform) (trigger : EventTrigger)
    (route o r tok sec : String) (h : Hook) (n : Int)
    (hres : trigger.Resource = o ++ "/" ++ r) (ho : '/' ∉ o.data) (hr : '/' ∉ r.data)
    (hat : trigger.Parameters.get "accessToken" = some (Value.str tok))
    (hst : trigger.Parameters.get "secretToken" = some (Value.str sec))
    (hP : P.CreateHook tok o r
        { CreatedAt := none, UpdatedAt := none, Name := some "web", URL := some route,
          Events := ["pull_request"], Active := some true,
          Config := [("url", Value.str ("http://" ++ route)),
            ("content_type", Value.str "json"), ("secret", Value.str sec)],
          ID := none } = (some h, none))
    (hid : h.ID = some n) :
    (StartFeed P trigger route).outcome =
      Outcome.ret (some ⟨[("id", Value.str (FormatInt n))]⟩, none) := by
  simp only [StartFeed, hat, hst, assertString, hres, Split_two o r ho hr, config_eq,
    List.getElem?_cons_zero, List.getElem?_cons_succ, hP, hid, webhookIDKey]

theorem StopFeed_no_id (P : Platform) (trigger : EventTrigger) (ctx : FeedContext)
    (o r : String)
    (hres : trigger.Resource = o ++ "/" ++ r) (ho : '/' ∉ o.data) (hr : '/' ∉ r.data)
    (hctx : ctx.Context.get "id" = none) :
    StopFeed P trigger ctx = ⟨[], Outcome.ret none⟩ := by
  simp only [StopFeed, hres, Split_two o r ho hr, List.getElem?_cons_zero,
    List.getElem?_cons_succ, webhookIDKey, hctx]

theorem StopFeed_parse_error (P : Platform) (trigger : EventTrigger) (ctx : FeedContext)
    (o r tok s : String) (v : Int) (err : NumError)
    (hres : trigger.Resource = o ++ "/" ++ r) (ho : '/' ∉ o.data) (hr : '/' ∉ r.data)
    (hat : trigger.Parameters.get "accessToken" = some (Value.str tok))
    (hctx : ctx.Context.get "id" = some (Value.str s))
    (hparse : ParseInt s = (v, some err)) :
    StopFeed P trigger ctx = ⟨[], Outcome.ret (some (GoError.numError err))⟩ := by
  simp only [StopFeed, hres, Split_two o r ho hr, List.getElem?_cons_zero,
    List.getElem?_cons_succ, webhookIDKey, hctx, assertString, hat, hparse]

theorem StopFeed_delete (P : Platform) (trigger : EventTrigger) (ctx : FeedContext)
    (o r tok s : String) (n : Int)
    (hres : trigger.Resource = o ++ "/" ++ r) (ho : '/' ∉ o.data) (hr : '/' ∉ r.data)
    (hat : trigger.Parameters.get "accessToken" = some (Value.str tok))
    (hctx : ctx.Context.get "id" = some (Value.str s))
    (hparse : ParseInt s = (n, none)) :
    StopFeed P trigger ctx =
      ⟨[Call.deleteHook tok o r n],
        match P.DeleteHook tok o r n with
        | none => Outcome.ret none
        | some (GoError.errorResponse resp) =>
          if resp.Message = "Not Found" then Outcome.ret none
          else Outcome.ret (some (GoError.errorResponse resp))
        | some e => Outcome.ret (some e)⟩ := by
  simp only [StopFeed, hres, Split_two o r ho hr, List.getElem?_cons_zero,
    List.getElem?_cons_succ, webhookIDKey, hctx, assertString, hat, hparse]
  cases hd : P.DeleteHook tok o r n with
  | none => rfl
  | some e =>
    cases e with
    | errorResponse resp =>
      dsimp only
      split <;> rfl
    | numError e => rfl
    | other t => rfl

theorem assertString_eq_none (x : Option Value) (h : ∀ s, x ≠ some (Value.str s)) :
    assertString x = none := by
  cases x with
  | none => rfl
  | some v =>
    cases v with
    | str s => exact absurd rfl (h s)
    | null => rfl
    | int i => rfl
    | bool b => rfl

theorem StopFeed_no_token (P : Platform) (trigger : EventTrigger) (ctx : FeedContext)
    (o r s : String)
    (hres : trigger.Resource = o ++ "/" ++ r) (ho : '/' ∉ o.data) (hr : '/' ∉ r.data)
    (hctx : ctx.Context.get "id" = some (Value.str s))
    (hnt : ∀ tok, trigger.Parameters.get "accessToken" ≠ some (Value.str tok)) :
    StopFeed P trigger ctx = ⟨[], Outcome.panic Panic.typeAssertion⟩ := by
  have hat := assertString_eq_none _ hnt
  simp only [StopFeed, hres, Split_two o r ho hr, List.getElem?_cons_zero,
    List.getElem?_cons_succ, webhookIDKey, hctx, hat]
  simp only [assertString]

/-! ## The claims -/

/-- C1: create-then-delete round trip.  For a trigger with resource `o/r` and
string `accessToken` and `secretToken`, if `StartFeed` made the create-hook call
`(tok', o', r', hook)`, the platform answered it with a hook whose ID is the
64-bit number `n`, and `StartFeed` returned the feed context `c` without error,
then `o' = o`, `r' = r`, the `"id"` entry of `c` is the base-10 text of `n`,
that text parses back to `n`, and `StopFeed trigger c` calls delete-hook
exactly once, with the triple `(o', r', n)`. -/
theorem C1_stop_after_start_deletes_created_hook (P : Platform) (trigger : EventTrigger)
    (route o r tok sec tok' o' r' : String) (hook h : Hook) (n : Int) (c : FeedContext)
    (hres : trigger.Resource = o ++ "/" ++ r) (ho : '/' ∉ o.data) (hr : '/' ∉ r.data)
    (hat : trigger.Parameters.get "accessToken" = some (Value.str tok))
    (hst : trigger.Parameters.get "secretToken" = some (Value.str sec))
    (hstart : StartFeed P trigger route =
      ⟨[Call.createHook tok' o' r' hook], Outcome.ret (some c, none)⟩)
    (hplat : P.CreateHook tok' o' r' hook = (some h, none)) (hid : h.ID = some n)
    (hlo : -(2 ^ 63) ≤ n) (hhi : n < 2 ^ 63) :
    o' = o ∧ r' = r ∧
    c.Context.get "id" = some (Value.str (FormatInt n)) ∧
    ParseInt (FormatInt n) = (n, none) ∧
    (StopFeed P trigger c).calls = [Call.deleteHook tok' o' r' n] := by
  have hcalls := StartFeed_calls P trigger route o r tok sec hres ho hr hat hst
  rw [hstart] at hcalls
  simp only [List.cons.injEq, Call.createHook.injEq, and_true] at hcalls
  obtain ⟨htok, ho', hr', hhook⟩ := hcalls
  subst htok ho' hr' hhook
  have hout := StartFeed_outcome_ok P trigger route o' r' tok' sec h n hres ho hr hat hst
    hplat hid
  rw [hstart] at hout
  simp only [Outcome.ret.injEq, Prod.mk.injEq, Option.some.injEq, and_true] at hout
  subst hout
  have hparse := ParseInt_FormatInt n hlo hhi
  refine ⟨rfl, rfl, ?_, hparse, ?_⟩
  · simp [GoMap.get]
  · rw [StopFeed_delete P trigger _ o' r' tok' (FormatInt n) n hres ho hr hat
      (by simp [GoMap.get]) hparse]

theorem C1_stop_after_start_deletes_created_hook_witness :
    StartFeed (assigningPlatform 555 (some notFound)) acmeTrigger "example.com/hook" =
      ⟨[Call.createHook "tok123" "acme" "widgets" scenarioHook],
        Outcome.ret (some ⟨[("id", Value.str "555")]⟩, none)⟩ ∧
    ("acme" = "acme" ∧ "widgets" = "widgets" ∧
      GoMap.get [("id", Value.str "555")] "id" = some (Value.str (FormatInt 555)) ∧
      ParseInt (FormatInt 555) = (555, none) ∧
      (StopFeed (assigningPlatform 555 (some notFound)) acmeTrigger
          ⟨[("id", Value.str "555")]⟩).calls =
        [Call.deleteHook "tok123" "acme" "widgets" 555]) :=
  ⟨by decide,
    C1_stop_after_start_deletes_created_hook (assigningPlatform 555 (some notFound))
      acmeTrigger "example.com/hook" "acme" "widgets" "tok123" "shh" "tok123" "acme" "widgets"
      scenarioHook { scenarioHook with ID := some 555 } 555 ⟨[("id", Value.str "555")]⟩
      (by decide) (by decide) (by decide) (by decide)
      (by decide) (by decide) rfl rfl (by decide) (by decide)⟩

/-- C2 (counterexample): the platform may assign the hook ID `0`; `StartFeed`
then succeeds with the feed context `{"id": "0"}`, whose identifier parses as
`0`, so no positive integer is the parse of the returned identifier. -/
theorem C2_counterexample :
    (StartFeed (assigningPlatform 0 none) acmeTrigger "example.com/hook").outcome =
      Outcome.ret (some ⟨[("id", Value.str "0")]⟩, none) ∧
    ParseInt "0" = (0, none) ∧
    ¬ ∃ (c : FeedContext) (s : String) (v : Int),
      (StartFeed (assigningPlatform 0 none) acmeTrigger "example.com/hook").outcome =
        Outcome.ret (some c, none) ∧
      c.Context.get "id" = some (Value.str s) ∧ ParseInt s = (v, none) ∧ 0 < v := by
  have hout : (StartFeed (assigningPlatform 0 none) acmeTrigger "example.com/hook").outcome =
      Outcome.ret (some ⟨[("id", Value.str "0")]⟩, none) := by decide
  have hparse : ParseInt "0" = (0, none) := by decide
  refine ⟨hout, hparse, ?_⟩
  rintro ⟨c, s, v, hc, hs, hv, hpos⟩
  rw [hout] at hc
  simp only [Outcome.ret.injEq, Prod.mk.injEq, Option.some.injEq, and_true] at hc
  subst hc
  simp only [GoMap.get, if_true, Option.some.injEq, Value.str.injEq] at hs
  subst hs
  rw [hparse] at hv
  simp only [Prod.mk.injEq, and_true] at hv
  omega

/-- C2 (amended): for a trigger with resource `o/r` and string `accessToken` and
`secretToken`, when the platform answers the create-hook call of `StartFeed`
with a hook whose ID is the 64-bit number `n` and no error, `StartFeed` returns
no error and a feed context whose `"id"` entry is the base-10 text of `n`; that
text parses to `n` (so to a positive integer whenever `n` is positive), and the
feed context has no other key. -/
theorem C2_start_returns_platform_id (P : Platform) (trigger : EventTrigger)
    (route o r tok sec : String) (h : Hook) (n : Int)
    (hres : trigger.Resource = o ++ "/" ++ r) (ho : '/' ∉ o.data) (hr : '/' ∉ r.data)
    (hat : trigger.Parameters.get "accessToken" = some (Value.str tok))
    (hst : trigger.Parameters.get "secretToken" = some (Value.str sec))
    (hcreate : ∀ hook, (StartFeed P trigger route).calls = [Call.createHook tok o r hook] →
      P.CreateHook tok o r hook = (some h, none))
    (hid : h.ID = some n) (hlo : -(2 ^ 63) ≤ n) (hhi : n < 2 ^ 63) :
    ∃ c : FeedContext,
      (StartFeed P trigger route).outcome = Outcome.ret (some c, none) ∧
      c.Context.get "id" = some (Value.str (FormatInt n)) ∧
      ParseInt (FormatInt n) = (n, none) ∧
      (0 < n → 0 < (ParseInt (FormatInt n)).1) ∧
      (∀ k, k ≠ "id" → c.Context.get k = none) ∧
      c.Context.length = 1 := by
  have hcalls := StartFeed_calls P trigger route o r tok sec hres ho hr hat hst
  have hout := StartFeed_outcome_ok P trigger route o r tok sec h n hres ho hr hat hst
    (hcreate _ hcalls) hid
  have hparse := ParseInt_FormatInt n hlo hhi
  refine ⟨⟨[("id", Value.str (FormatInt n))]⟩, hout, ?_, hparse, ?_, ?_, rfl⟩
  · simp [GoMap.get]
  · intro hpos
    rw [hparse]
    exact hpos
  · intro k hk
    have hk' : ¬ ("id" = k) := fun e => hk e.symm
    simp [GoMap.get, hk']

theorem C2_start_returns_platform_id_witness :
    ∃ c : FeedContext,
      (StartFeed (assigningPlatform 555 none) acmeTrigger "example.com/hook").outcome =
        Outcome.ret (some c, none) ∧
      c.Context.get "id" = some (Value.str (FormatInt 555)) ∧
      ParseInt (FormatInt 555) = (555, none) ∧
      ((0 : Int) < 555 → 0 < (ParseInt (FormatInt 555)).1) ∧
      (∀ k, k ≠ "id" → c.Context.get k = none) ∧
      c.Context.length = 1 :=
  C2_start_returns_platform_id (assigningPlatform 555 none) acmeTrigger "example.com/hook"
    "acme" "widgets" "tok123" "shh" { scenarioHook with ID := some 555 } 555
    (by decide) (by decide) (by decide) (by decide) (by decide)
    (fun hook hc => by
      have e : hook = scenarioHook := by
        have hd : (StartFeed (assigningPlatform 555 none) acmeTrigger
            "example.com/hook").calls =
            [Call.createHook "tok123" "acme" "widgets" scenarioHook] := by decide
        rw [hd] at hc
        simp only [List.cons.injEq, Call.createHook.injEq, true_and, and_true] at hc
        exact hc.symm
      rw [e]
      rfl)
    rfl (by decide) (by decide)

/-- C3: for a trigger with resource `o/r` and string `accessToken` and
`secretToken`, and every route, `StartFeed` makes exactly one create-hook call,
and the webhook specification it passes has `active = true`, `name = "web"`,
`events = ["pull_request"]`, and a delivery configuration with exactly the three
entries `url = "http://" + route`, `content_type = "json"` and
`secret = secretToken`.  Each value is given by the route and the secret alone. -/
theorem C3_webhook_specification (P : Platform) (trigger : EventTrigger)
    (route o r tok sec : String)
    (hres : trigger.Resource = o ++ "/" ++ r) (ho : '/' ∉ o.data) (hr : '/' ∉ r.data)
    (hat : trigger.Parameters.get "accessToken" = some (Value.str tok))
    (hst : trigger.Parameters.get "secretToken" = some (Value.str sec)) :
    ∃ hook : Hook,
      (StartFeed P trigger route).calls = [Call.createHook tok o r hook] ∧
      hook.Active = some true ∧
      hook.Name = some "web" ∧
      hook.Events = ["pull_request"] ∧
      (∀ k, hook.Config.get k =
        if k = "url" then some (Value.str ("http://" ++ route))
        else if k = "content_type" then some (Value.str "json")
        else if k = "secret" then some (Value.str sec)
        else none) ∧
      hook.Config.map Prod.fst = ["url", "content_type", "secret"] := by
  refine ⟨_, StartFeed_calls P trigger route o r tok sec hres ho hr hat hst,
    rfl, rfl, rfl, ?_, rfl⟩
  intro k
  simp only [GoMap.get, eq_comm]

theorem C3_webhook_specification_witness :
    ∃ hook : Hook,
      (StartFeed (assigningPlatform 555 none) acmeTrigger "example.com/hook").calls =
        [Call.createHook "tok123" "acme" "widgets" hook] ∧
      hook.Active = some true ∧
      hook.Name = some "web" ∧
      hook.Events = ["pull_request"] ∧
      (∀ k, hook.Config.get k =
        if k = "url" then some (Value.str ("http://" ++ "example.com/hook"))
        else if k = "content_type" then some (Value.str "json")
        else if k = "secret" then some (Value.str "shh")
        else none) ∧
      hook.Config.map Prod.fst = ["url", "content_type", "secret"] :=
  C3_webhook_specification (assigningPlatform 555 none) acmeTrigger "example.com/hook"
    "acme" "widgets" "tok123" "shh" (by decide) (by decide) (by decide) (by decide)
    (by decide)

/-- C4 (counterexample): in the end-to-end scenario the hook's own URL field is
the bare route `example.com/hook`, not `http://example.com/hook`. -/
theorem C4_counterexample :
    (StartFeed (assigningPlatform 555 none) acmeTrigger "example.com/hook").calls =
      [Call.createHook "tok123" "acme" "widgets" scenarioHook] ∧
    scenarioHook.URL = some "example.com/hook" ∧
    ¬ ∃ (tok o r : String) (hook : Hook),
      (StartFeed (assigningPlatform 555 none) acmeTrigger "example.com/hook").calls =
        [Call.createHook tok o r hook] ∧
      hook.URL = some ("http://" ++ "example.com/hook") := by
  have hcalls : (StartFeed (assigningPlatform 555 none) acmeTrigger "example.com/hook").calls =
      [Call.createHook "tok123" "acme" "widgets" scenarioHook] := by decide
  refine ⟨hcalls, rfl, ?_⟩
  rintro ⟨tok, o, r, hook, hc, hurl⟩
  rw [hcalls] at hc
  simp only [List.cons.injEq, Call.createHook.injEq, and_true] at hc
  obtain ⟨_, _, _, hh⟩ := hc
  subst hh
  revert hurl
  decide

/-- C4 (amended): for a trigger with resource `o/r` and string `accessToken` and
`secretToken`, and every route, the URL field of the webhook specification that
`StartFeed` passes to create-hook is the route itself, without the `http://`
prefix, while the `url` entry of its delivery configuration is `"http://"`
followed by the route; the two strings are different. -/
theorem C4_hook_url_is_bare_route (P : Platform) (trigger : EventTrigger)
    (route o r tok sec : String)
    (hres : trigger.Resource = o ++ "/" ++ r) (ho : '/' ∉ o.data) (hr : '/' ∉ r.data)
    (hat : trigger.Parameters.get "accessToken" = some (Value.str tok))
    (hst : trigger.Parameters.get "secretToken" = some (Value.str sec)) :
    ∃ hook : Hook,
      (StartFeed P trigger route).calls = [Call.createHook tok o r hook] ∧
      hook.URL = some route ∧
      hook.Config.get "url" = some (Value.str ("http://" ++ route)) ∧
      hook.URL ≠ some ("http://" ++ route) := by
  refine ⟨_, StartFeed_calls P trigger route o r tok sec hres ho hr hat hst, rfl, ?_, ?_⟩
  · simp [GoMap.get]
  · intro e
    simp only [Option.some.injEq] at e
    have hl := congrArg String.length e
    rw [String.length_append] at hl
    have h7 : ("http://" : String).length = 7 := by decide
    omega

theorem C4_hook_url_is_bare_route_witness :
    ∃ hook : Hook,
      (StartFeed (assigningPlatform 555 none) acmeTrigger "example.com/hook").calls =
        [Call.createHook "tok123" "acme" "widgets" hook] ∧
      hook.URL = some "example.com/hook" ∧
      hook.Config.get "url" = some (Value.str ("http://" ++ "example.com/hook")) ∧
      hook.URL ≠ some ("http://" ++ "example.com/hook") :=
  C4_hook_url_is_bare_route (assigningPlatform 555 none) acmeTrigger "example.com/hook"
    "acme" "widgets" "tok123" "shh" (by decide) (by decide) (by decide) (by decide)
    (by decide)

/-- C5: for a trigger with resource `o/r` and a feed context whose mapping has no
`"id"` key, `StopFeed` returns success (`nil`) and makes no platform call,
whatever the trigger's parameters are. -/
theorem C5_stop_without_id_is_noop (P : Platform) (trigger : EventTrigger)
    (ctx : FeedContext) (o r : String)
    (hres : trigger.Resource = o ++ "/" ++ r) (ho : '/' ∉ o.data) (hr : '/' ∉ r.data)
    (hctx : ctx.Context.get "id" = none) :
    (StopFeed P trigger ctx).outcome = Outcome.ret none ∧
    (StopFeed P trigger ctx).calls = [] := by
  rw [StopFeed_no_id P trigger ctx o r hres ho hr hctx]
  exact ⟨rfl, rfl⟩

theorem C5_stop_without_id_is_noop_witness :
    (StopFeed (failingPlatform notFound) ⟨"acme/widgets", [("accessToken", Value.int 7)]⟩
        ⟨[("owner", Value.str "acme")]⟩).outcome = Outcome.ret none ∧
    (StopFeed (failingPlatform notFound) ⟨"acme/widgets", [("accessToken", Value.int 7)]⟩
        ⟨[("owner", Value.str "acme")]⟩).calls = [] :=
  C5_stop_without_id_is_noop (failingPlatform notFound)
    ⟨"acme/widgets", [("accessToken", Value.int 7)]⟩ ⟨[("owner", Value.str "acme")]⟩
    "acme" "widgets" (by decide) (by decide) (by decide) (by decide)

/-- C6 (counterexample): the platform's delete-hook call fails with an error
whose message is exactly `"Not Found"` but which is not an error response of
the client library; `StopFeed` returns that error, not success. -/
theorem C6_counterexample :
    StopFeed (assigningPlatform 555 (some (GoError.other "Not Found"))) acmeTrigger
        ⟨[("id", Value.str "555")]⟩ =
      ⟨[Call.deleteHook "tok123" "acme" "widgets" 555],
        Outcome.ret (some (GoError.other "Not Found"))⟩ ∧
    (StopFeed (assigningPlatform 555 (some (GoError.other "Not Found"))) acmeTrigger
        ⟨[("id", Value.str "555")]⟩).outcome ≠ Outcome.ret none := by
  decide

/-- C6 (amended): for a trigger with resource `o/r` and a string `accessToken`,
and a feed context whose `"id"` parses as the 64-bit integer `n`, whenever the
platform's delete-hook call fails with an error response of the client library
(`*ghclient.ErrorResponse`) whose `Message` field is exactly `"Not Found"`,
`StopFeed` returns success (`nil`), after that single call. -/
theorem C6_not_found_is_success (P : Platform) (trigger : EventTrigger) (ctx : FeedContext)
    (o r tok s : String) (n : Int) (resp : ErrorResponse)
    (hres : trigger.Resource = o ++ "/" ++ r) (ho : '/' ∉ o.data) (hr : '/' ∉ r.data)
    (hat : trigger.Parameters.get "accessToken" = some (Value.str tok))
    (hctx : ctx.Context.get "id" = some (Value.str s))
    (hparse : ParseInt s = (n, none))
    (hdel : P.DeleteHook tok o r n = some (GoError.errorResponse resp))
    (hmsg : resp.Message = "Not Found") :
    (StopFeed P trigger ctx).outcome = Outcome.ret none ∧
    (StopFeed P trigger ctx).calls = [Call.deleteHook tok o r n] := by
  rw [StopFeed_delete P trigger ctx o r tok s n hres ho hr hat hctx hparse, hdel]
  simp [hmsg]

theorem C6_not_found_is_success_witness :
    (StopFeed (assigningPlatform 555 (some notFound)) acmeTrigger
        ⟨[("id", Value.str "555")]⟩).outcome = Outcome.ret none ∧
    (StopFeed (assigningPlatform 555 (some notFound)) acmeTrigger
        ⟨[("id", Value.str "555")]⟩).calls =
      [Call.deleteHook "tok123" "acme" "widgets" 555] :=
  C6_not_found_is_success (assigningPlatform 555 (some notFound)) acmeTrigger
    ⟨[("id", Value.str "555")]⟩ "acme" "widgets" "tok123" "555" 555 ⟨"Not Found", 404⟩
    (by decide) (by decide) (by decide) (by decide) (by decide) (by decide) rfl rfl

/-- C7: platform failures are surfaced verbatim, after a single call.  For a
trigger with resource `o/r` and a string `accessToken`, two independent facts.
Create: if `secretToken` is a string and the platform answers the create-hook
call of `StartFeed` with the error `e`, then `StartFeed` made exactly that one
call and returns no feed context together with `e`.  Delete: if, for a feed
context whose `"id"` parses as `n`, the platform answers delete-hook with an
error `e'` that is not the "Not Found" error response, then `StopFeed` made
exactly that one call and returns `e'`. -/
theorem C7_platform_errors_surface_verbatim (P : Platform) (trigger : EventTrigger)
    (route o r tok : String)
    (hres : trigger.Resource = o ++ "/" ++ r) (ho : '/' ∉ o.data) (hr : '/' ∉ r.data)
    (hat : trigger.Parameters.get "accessToken" = some (Value.str tok)) :
    (∀ (sec : String) (e : GoError),
      trigger.Parameters.get "secretToken" = some (Value.str sec) →
      (∀ hook, (StartFeed P trigger route).calls = [Call.createHook tok o r hook] →
        (P.CreateHook tok o r hook).2 = some e) →
      ∃ hook : Hook, StartFeed P trigger route =
        ⟨[Call.createHook tok o r hook], Outcome.ret (none, some e)⟩) ∧
    (∀ (ctx : FeedContext) (s : String) (n : Int) (e' : GoError),
      ctx.Context.get "id" = some (Value.str s) →
      ParseInt s = (n, none) →
      P.DeleteHook tok o r n = some e' →
      (∀ resp, e' = GoError.errorResponse resp → resp.Message ≠ "Not Found") →
      StopFeed P trigger ctx = ⟨[Call.deleteHook tok o r n], Outcome.ret (some e')⟩) := by
  constructor
  · intro sec e hst hcreate
    have hcalls := StartFeed_calls P trigger route o r tok sec hres ho hr hat hst
    have hout := StartFeed_outcome_error P trigger route o r tok sec e hres ho hr hat hst
      (hcreate _ hcalls)
    generalize StartFeed P trigger route = run at hcalls hout
    obtain ⟨calls, outcome⟩ := run
    simp only at hcalls hout
    subst hcalls hout
    exact ⟨_, rfl⟩
  · intro ctx s n e' hctx hparse hdel hnot
    rw [StopFeed_delete P trigger ctx o r tok s n hres ho hr hat hctx hparse, hdel]
    cases e' with
    | errorResponse resp => simp [hnot resp rfl]
    | numError err => rfl
    | other t => rfl

theorem C7_platform_errors_surface_verbatim_witness :
    (∃ hook : Hook,
      StartFeed (failingPlatform (GoError.errorResponse ⟨"Bad credentials", 401⟩)) acmeTrigger
          "example.com/hook" =
        ⟨[Call.createHook "tok123" "acme" "widgets" hook],
          Outcome.ret (none, some (GoError.other "dial tcp: connection refused"))⟩) ∧
    StopFeed (failingPlatform (GoError.errorResponse ⟨"Bad credentials", 401⟩)) acmeTrigger
        ⟨[("id", Value.str "555")]⟩ =
      ⟨[Call.deleteHook "tok123" "acme" "widgets" 555],
        Outcome.ret (some (GoError.errorResponse ⟨"Bad credentials", 401⟩))⟩ ∧
    StopFeed (assigningPlatform 555 (some (GoError.other "Not Found")))
        ⟨"acme/widgets", [("accessToken", Value.str "tok123")]⟩ ⟨[("id", Value.str "555")]⟩ =
      ⟨[Call.deleteHook "tok123" "acme" "widgets" 555],
        Outcome.ret (some (GoError.other "Not Found"))⟩ :=
  ⟨(C7_platform_errors_surface_verbatim
      (failingPlatform (GoError.errorResponse ⟨"Bad credentials", 401⟩)) acmeTrigger
      "example.com/hook" "acme" "widgets" "tok123"
      (by decide) (by decide) (by decide) (by decide)).1 "shh"
      (GoError.other "dial tcp: connection refused") (by decide) (fun _ _ => rfl),
    (C7_platform_errors_surface_verbatim
      (failingPlatform (GoError.errorResponse ⟨"Bad credentials", 401⟩)) acmeTrigger
      "example.com/hook" "acme" "widgets" "tok123"
      (by decide) (by decide) (by decide) (by decide)).2 ⟨[("id", Value.str "555")]⟩
      "555" 555 (GoError.errorResponse ⟨"Bad credentials", 401⟩) (by decide) (by decide) rfl
      (fun resp hresp => by
        simp only [GoError.errorResponse.injEq] at hresp
        subst hresp
        decide),
    (C7_platform_errors_surface_verbatim
      (assigningPlatform 555 (some (GoError.other "Not Found")))
      ⟨"acme/widgets", [("accessToken", Value.str "tok123")]⟩
      "example.com/hook" "acme" "widgets" "tok123"
      (by decide) (by decide) (by decide) (by decide)).2 ⟨[("id", Value.str "555")]⟩
      "555" 555 (GoError.other "Not Found") (by decide) (by decide) rfl
      (fun resp hresp => GoError.noConfusion hresp)⟩

/-- C8: for a resource `o ++ "/" ++ r` in which neither `o` nor `r` contains a
`/` (they need not even be non-empty), and string token parameters, `StartFeed`
calls create-hook with owner `o` and repo `r`, and `StopFeed`, for a feed
context whose `"id"` parses as `n`, calls delete-hook with owner `o`, repo `r`
and id `n`. -/
theorem C8_owner_and_repo_from_resource (P : Platform) (trigger : EventTrigger)
    (ctx : FeedContext) (route o r tok sec s : String) (n : Int)
    (hres : trigger.Resource = o ++ "/" ++ r) (ho : '/' ∉ o.data) (hr : '/' ∉ r.data)
    (hat : trigger.Parameters.get "accessToken" = some (Value.str tok))
    (hst : trigger.Parameters.get "secretToken" = some (Value.str sec))
    (hctx : ctx.Context.get "id" = some (Value.str s))
    (hparse : ParseInt s = (n, none)) :
    (∃ hook : Hook, (StartFeed P trigger route).calls = [Call.createHook tok o r hook]) ∧
    (StopFeed P trigger ctx).calls = [Call.deleteHook tok o r n] := by
  constructor
  · exact ⟨_, StartFeed_calls P trigger route o r tok sec hres ho hr hat hst⟩
  · rw [StopFeed_delete P trigger ctx o r tok s n hres ho hr hat hctx hparse]

theorem C8_owner_and_repo_from_resource_witness :
    (∃ hook : Hook,
      (StartFeed (assigningPlatform 555 none)
          ⟨"ownerX/repoY", acmeTrigger.Parameters⟩ "example.com/hook").calls =
        [Call.createHook "tok123" "ownerX" "repoY" hook]) ∧
    (StopFeed (assigningPlatform 555 none) ⟨"ownerX/repoY", acmeTrigger.Parameters⟩
        ⟨[("id", Value.str "-42")]⟩).calls =
      [Call.deleteHook "tok123" "ownerX" "repoY" (-42)] :=
  C8_owner_and_repo_from_resource (assigningPlatform 555 none)
    ⟨"ownerX/repoY", acmeTrigger.Parameters⟩ ⟨[("id", Value.str "-42")]⟩ "example.com/hook"
    "ownerX" "repoY" "tok123" "shh" "-42" (-42)
    (by decide) (by decide) (by decide) (by decide) (by decide) (by decide) (by decide)

/-- C9 (counterexample): with resource `acme/widgets`, no `accessToken`
parameter and the stored identifier `"abc"` (which does not parse), `StopFeed`
ends in a type-assertion panic instead of returning the parse error: the
client is built from the token before the identifier is parsed. -/
theorem C9_counterexample :
    ParseInt "abc" = (0, some ⟨"ParseInt", "abc", NumCause.ErrSyntax⟩) ∧
    StopFeed (assigningPlatform 555 none) ⟨"acme/widgets", []⟩ ⟨[("id", Value.str "abc")]⟩ =
      ⟨[], Outcome.panic Panic.typeAssertion⟩ ∧
    ¬ ∃ err : NumError,
      (StopFeed (assigningPlatform 555 none) ⟨"acme/widgets", []⟩
        ⟨[("id", Value.str "abc")]⟩).outcome = Outcome.ret (some (GoError.numError err)) := by
  have hrun : StopFeed (assigningPlatform 555 none) ⟨"acme/widgets", []⟩
      ⟨[("id", Value.str "abc")]⟩ = ⟨[], Outcome.panic Panic.typeAssertion⟩ := by decide
  refine ⟨by decide, hrun, ?_⟩
  rintro ⟨err, herr⟩
  rw [hrun] at herr
  exact Outcome.noConfusion herr

/-- C9 (amended): for a trigger with resource `o/r` and a feed context whose
`"id"` entry is a string that does not parse as a base-10 signed 64-bit
integer: if the `accessToken` parameter is a string, `StopFeed` returns the
parse error as its failure result; if it is absent or not a string, `StopFeed`
ends in a type-assertion panic; in both cases delete-hook is never called. -/
theorem C9_unparseable_id_is_returned (P : Platform) (trigger : EventTrigger)
    (ctx : FeedContext) (o r s : String) (v : Int) (err : NumError)
    (hres : trigger.Resource = o ++ "/" ++ r) (ho : '/' ∉ o.data) (hr : '/' ∉ r.data)
    (hctx : ctx.Context.get "id" = some (Value.str s))
    (hparse : ParseInt s = (v, some err)) :
    ((∃ tok, trigger.Parameters.get "accessToken" = some (Value.str tok)) →
      StopFeed P trigger ctx = ⟨[], Outcome.ret (some (GoError.numError err))⟩) ∧
    ((∀ tok, trigger.Parameters.get "accessToken" ≠ some (Value.str tok)) →
      StopFeed P trigger ctx = ⟨[], Outcome.panic Panic.typeAssertion⟩) ∧
    (StopFeed P trigger ctx).calls = [] := by
  have h1 : (∃ tok, trigger.Parameters.get "accessToken" = some (Value.str tok)) →
      StopFeed P trigger ctx = ⟨[], Outcome.ret (some (GoError.numError err))⟩ := by
    rintro ⟨tok, hat⟩
    exact StopFeed_parse_error P trigger ctx o r tok s v err hres ho hr hat hctx hparse
  have h2 : (∀ tok, trigger.Parameters.get "accessToken" ≠ some (Value.str tok)) →
      StopFeed P trigger ctx = ⟨[], Outcome.panic Panic.typeAssertion⟩ :=
    StopFeed_no_token P trigger ctx o r s hres ho hr hctx
  refine ⟨h1, h2, ?_⟩
  by_cases hex : ∃ tok, trigger.Parameters.get "accessToken" = some (Value.str tok)
  · rw [h1 hex]
  · rw [h2 (fun tok htok => hex ⟨tok, htok⟩)]

theorem C9_unparseable_id_is_returned_witness :
    StopFeed (assigningPlatform 555 none) acmeTrigger
        ⟨[("id", Value.str "9223372036854775808")]⟩ =
      ⟨[], Outcome.ret (some (GoError.numError
        ⟨"ParseInt", "9223372036854775808", NumCause.ErrRange⟩))⟩ ∧
    StopFeed (assigningPlatform 555 none) ⟨"acme/widgets", [("accessToken", Value.int 7)]⟩
        ⟨[("id", Value.str "12x")]⟩ = ⟨[], Outcome.panic Panic.typeAssertion⟩ ∧
    (StopFeed (assigningPlatform 555 none) acmeTrigger
        ⟨[("id", Value.str "9223372036854775808")]⟩).calls = [] :=
  ⟨(C9_unparseable_id_is_returned (assigningPlatform 555 none) acmeTrigger
      ⟨[("id", Value.str "9223372036854775808")]⟩ "acme" "widgets"
      "9223372036854775808" (2 ^ 63 - 1)
      ⟨"ParseInt", "9223372036854775808", NumCause.ErrRange⟩
      (by decide) (by decide) (by decide) (by decide) (by decide)).1 ⟨"tok123", by decide⟩,
    (C9_unparseable_id_is_returned (assigningPlatform 555 none)
      ⟨"acme/widgets", [("accessToken", Value.int 7)]⟩
      ⟨[("id", Value.str "12x")]⟩ "acme" "widgets" "12x" 0
      ⟨"ParseInt", "12x", NumCause.ErrSyntax⟩
      (by decide) (by decide) (by decide) (by decide) (by decide)).2.1
      (fun tok htok => by
        have hget : GoMap.get [("accessToken", Value.int 7)] "accessToken" =
            some (Value.int 7) := by decide
        rw [show (EventTrigger.mk "acme/widgets" [("accessToken", Value.int 7)]).Parameters =
          [("accessToken", Value.int 7)] from rfl, hget] at htok
        simp only [Option.some.injEq] at htok
        exact Value.noConfusion htok),
    (C9_unparseable_id_is_returned (assigningPlatform 555 none) acmeTrigger
      ⟨[("id", Value.str "9223372036854775808")]⟩ "acme" "widgets"
      "9223372036854775808" (2 ^ 63 - 1)
      ⟨"ParseInt", "9223372036854775808", NumCause.ErrRange⟩
      (by decide) (by decide) (by decide) (by decide) (by decide)).2.2⟩

/-- C10 (counterexample): the resource `a/b/c` splits into three components,
yet neither operation panics: `StartFeed` calls create-hook and `StopFeed`
calls delete-hook, both with owner `a` and repo `b`. -/
theorem C10_counterexample :
    Split "a/b/c" '/' = ["a", "b", "c"] ∧
    StartFeed (assigningPlatform 555 none) ⟨"a/b/c", acmeTrigger.Parameters⟩
        "example.com/hook" =
      ⟨[Call.createHook "tok123" "a" "b" scenarioHook],
        Outcome.ret (some ⟨[("id", Value.str "555")]⟩, none)⟩ ∧
    StopFeed (assigningPlatform 555 none) ⟨"a/b/c", acmeTrigger.Parameters⟩
        ⟨[("id", Value.str "555")]⟩ =
      ⟨[Call.deleteHook "tok123" "a" "b" 555], Outcome.ret none⟩ := by
  decide

/-- C10 (amended): for every trigger whose resource splits on `/` into fewer
than two components, `StopFeed` ends in an index panic and makes no delete-hook
call, whatever the parameters and the feed context; `StartFeed` makes no
create-hook call and ends in a panic: the index panic when `accessToken` and
`secretToken` are both strings, the type-assertion panic when either of them is
absent or not a string. -/
theorem C10_short_resource_panics (P : Platform) (trigger : EventTrigger)
    (ctx : FeedContext) (route : String)
    (hlen : (Split trigger.Resource '/').length < 2) :
    StopFeed P trigger ctx = ⟨[], Outcome.panic Panic.indexOutOfRange⟩ ∧
    (StartFeed P trigger route).calls = [] ∧
    (∃ p, (StartFeed P trigger route).outcome = Outcome.panic p) ∧
    (∀ tok sec, trigger.Parameters.get "accessToken" = some (Value.str tok) →
      trigger.Parameters.get "secretToken" = some (Value.str sec) →
      StartFeed P trigger route = ⟨[], Outcome.panic Panic.indexOutOfRange⟩) ∧
    ((∀ tok, trigger.Parameters.get "accessToken" ≠ some (Value.str tok)) ∨
        (∀ sec, trigger.Parameters.get "secretToken" ≠ some (Value.str sec)) →
      StartFeed P trigger route = ⟨[], Outcome.panic Panic.typeAssertion⟩) := by
  have hsplit : (Split trigger.Resource '/')[0]? = none ∨
      (∃ a, (Split trigger.Resource '/')[0]? = some a) ∧
        (Split trigger.Resource '/')[1]? = none := by
    cases hs : Split trigger.Resource '/' with
    | nil => exact Or.inl rfl
    | cons a t =>
      cases t with
      | nil => exact Or.inr ⟨⟨a, rfl⟩, rfl⟩
      | cons b t' =>
        rw [hs] at hlen
        simp only [List.length_cons] at hlen
        omega
  refine ⟨?_, ?_, ?_, ?_, ?_⟩
  · rcases hsplit with h0 | ⟨⟨a, h0⟩, h1⟩
    · simp only [StopFeed, h0]
    · simp only [StopFeed, h0, h1]
  · unfold StartFeed
    cases assertString (trigger.Parameters.get "accessToken") with
    | none => rfl
    | some tok =>
      cases assertString (trigger.Parameters.get "secretToken") with
      | none => rfl
      | some sec =>
        rcases hsplit with h0 | ⟨⟨a, h0⟩, h1⟩
        · simp only [h0]
        · simp only [h0, h1]
  · unfold StartFeed
    cases assertString (trigger.Parameters.get "accessToken") with
    | none => exact ⟨_, rfl⟩
    | some tok =>
      cases assertString (trigger.Parameters.get "secretToken") with
      | none => exact ⟨_, rfl⟩
      | some sec =>
        rcases hsplit with h0 | ⟨⟨a, h0⟩, h1⟩
        · simp only [h0]
          exact ⟨_, rfl⟩
        · simp only [h0, h1]
          exact ⟨_, rfl⟩
  · intro tok sec hat hst
    rcases hsplit with h0 | ⟨⟨a, h0⟩, h1⟩
    · simp only [StartFeed, hat, hst, assertString, h0]
    · simp only [StartFeed, hat, hst, assertString, h0, h1]
  · intro hbad
    unfold StartFeed
    rcases hbad with hna | hns
    · rw [assertString_eq_none _ hna]
    · rw [assertString_eq_none _ hns]
      cases assertString (trigger.Parameters.get "accessToken") <;> rfl

theorem C10_short_resource_panics_witness :
    StopFeed (assigningPlatform 555 none) ⟨"acme", acmeTrigger.Parameters⟩
        ⟨[("id", Value.str "555")]⟩ = ⟨[], Outcome.panic Panic.indexOutOfRange⟩ ∧
    StartFeed (assigningPlatform 555 none) ⟨"acme", acmeTrigger.Parameters⟩
        "example.com/hook" = ⟨[], Outcome.panic Panic.indexOutOfRange⟩ ∧
    StartFeed (assigningPlatform 555 none) ⟨"", []⟩ "example.com/hook" =
      ⟨[], Outcome.panic Panic.typeAssertion⟩ :=
  ⟨(C10_short_resource_panics (assigningPlatform 555 none) ⟨"acme", acmeTrigger.Parameters⟩
      ⟨[("id", Value.str "555")]⟩ "example.com/hook" (by decide)).1,
    (C10_short_resource_panics (assigningPlatform 555 none) ⟨"acme", acmeTrigger.Parameters⟩
      ⟨[("id", Value.str "555")]⟩ "example.com/hook" (by decide)).2.2.2.1 "tok123" "shh"
      (by decide) (by decide),
    (C10_short_resource_panics (assigningPlatform 555 none) ⟨"", []⟩
      ⟨[]⟩ "example.com/hook" (by decide)).2.2.2.2
      (Or.inl (fun tok htok => Option.noConfusion htok))⟩

end Github
